import Mathlib

/-!
# RankBuddy keyword engine: a shallow embedding

This file embeds the keyword-aggregation, categorization and
difficulty-scoring engine of the RankBuddy repository
(`rankbuddy_app.py`, `rankbuddy_app_realtime.py`, `rankbuddy_app_backup.py`)
and proves the specification's claims about it.

Python strings are modelled as lists of Unicode code points (`List Nat`);
Python float arithmetic in the scoring formulas is modelled exactly over `ℚ`
(every comparison proved here is robust to this choice, since the
computations involved are exact).  Network-dependent suggestion sources are
modelled as explicit inputs: each source's contribution is a parameter of
the aggregation function, exactly as the aggregation code consumes the
already-fetched lists.
-/

/-- A Python string: its sequence of Unicode code points. -/
abbrev PyStr := List Nat

/-- Code points of a Lean string literal, used to write concrete inputs. -/
def pyStr (s : String) : PyStr := s.data.map Char.toNat

/-- Python whitespace (`str.split`, `str.strip`, `\s`): space, tab, newline,
carriage return, vertical tab, form feed. -/
def isSpace (n : Nat) : Bool := n == 32 || n == 9 || n == 10 || n == 13 || n == 11 || n == 12

/-- Python `str.lower` on one code point (ASCII, as used throughout the app). -/
def lowerChar (n : Nat) : Nat := if 65 ≤ n ∧ n ≤ 90 then n + 32 else n

/-- Python `str.upper` on one code point (ASCII). -/
def upperChar (n : Nat) : Nat := if 97 ≤ n ∧ n ≤ 122 then n - 32 else n

/-- ASCII letter test, for `str.title`'s word boundaries. -/
def isAlphaCode (n : Nat) : Bool := (65 ≤ n && n ≤ 90) || (97 ≤ n && n ≤ 122)

/-- ASCII letter-or-digit test, for the offline analyzer's
`re.sub(r'[^a-zA-Z0-9\s]', '', ...)` cleaning step. -/
def isAlnumCode (n : Nat) : Bool :=
  (48 ≤ n && n ≤ 57) || (65 ≤ n && n ≤ 90) || (97 ≤ n && n ≤ 122)

/-- Python `str.lower`. -/
def pyLower (s : PyStr) : PyStr := s.map lowerChar

/-- Python `str.strip`: drop whitespace from both ends. -/
def pyStrip (s : PyStr) : PyStr :=
  ((s.dropWhile isSpace).reverse.dropWhile isSpace).reverse

/-- Worker for `str.split()` (no separator argument): split on runs of
whitespace, discarding empty pieces.  `cur` holds the current token,
reversed. -/
def pySplitAux : PyStr → PyStr → List PyStr
  | [], cur => if cur = [] then [] else [cur.reverse]
  | c :: rest, cur =>
    if isSpace c then
      if cur = [] then pySplitAux rest [] else cur.reverse :: pySplitAux rest []
    else pySplitAux rest (c :: cur)

/-- Python `str.split()`: whitespace-delimited tokens. -/
def pySplit (s : PyStr) : List PyStr := pySplitAux s []

/-- Number of whitespace-delimited tokens, `len(s.split())`. -/
def numTokens (s : PyStr) : Nat := (pySplit s).length

/-- Python's substring test `pat in s`. -/
def containsSub (pat : PyStr) : PyStr → Bool
  | [] => pat.isEmpty
  | c :: rest => pat.isPrefixOf (c :: rest) || containsSub pat rest

/-- Number of (possibly overlapping) occurrences of `pat` in a string:
the number of positions at which `pat` starts. -/
def countOcc (pat : PyStr) : PyStr → Nat
  | [] => if pat.isEmpty then 1 else 0
  | c :: rest => (if pat.isPrefixOf (c :: rest) then 1 else 0) + countOcc pat rest

/-- Python's binary `max` on numbers. -/
def pyMax (a b : ℚ) : ℚ := if a ≤ b then b else a

/-- Python's binary `min` on numbers. -/
def pyMin (a b : ℚ) : ℚ := if a ≤ b then a else b

/-- Python's `int()` conversion on a number: truncation toward zero. -/
def pyInt (q : ℚ) : ℤ := if 0 ≤ q then ⌊q⌋ else ⌈q⌉

/-- Worker for `str.title`: uppercase every letter that follows a
non-letter, lowercase every other letter. -/
def pyTitleAux : PyStr → Bool → PyStr
  | [], _ => []
  | c :: rest, prevAlpha =>
    (if prevAlpha then lowerChar c else upperChar c) :: pyTitleAux rest (isAlphaCode c)

/-- Python `str.title`. -/
def pyTitle (s : PyStr) : PyStr := pyTitleAux s false

namespace RealTimeKeywordAPI

/-- The list `high_competition_terms` from
`RealTimeKeywordAPI.estimate_keyword_difficulty`. -/
def high_competition_terms : List PyStr :=
  [pyStr "best", pyStr "top", pyStr "free", pyStr "review", pyStr "buy",
   pyStr "cheap", pyStr "price"]

/-- The loop `sum(5 for term in high_competition_terms if term in keyword.lower())`:
`kl` is the lower-cased keyword. -/
def boostSum (kl : PyStr) : List PyStr → ℚ
  | [] => 0
  | t :: ts => (if containsSub t kl then 5 else 0) + boostSum kl ts

/-- Embeds `RealTimeKeywordAPI.estimate_keyword_difficulty` (rankbuddy_app.py,
lines 170-189; identical in rankbuddy_app_realtime.py): the lexical
difficulty heuristic.  The `try` body cannot raise (the average-length
division is guarded), so the `except` branch returning 50 is not part of
the embedding. -/
def estimate_keyword_difficulty (keyword : PyStr) : ℚ :=
  let words := pySplit (pyLower keyword)
  let word_count : ℚ := words.length
  let avg_length : ℚ :=
    if words = [] then 0 else ((words.map List.length).sum : ℚ) / words.length
  let base_difficulty := pyMax 10 (80 - word_count * 15 - avg_length * 2)
  let competition_boost := boostSum (pyLower keyword) high_competition_terms
  pyMin 95 (base_difficulty + competition_boost)

end RealTimeKeywordAPI

namespace RealTimeSEOAnalyzer

/-- The aggregation filter from `generate_real_keywords`:
`3 <= len(keyword) <= 100 and len(keyword.split()) <= 6`. -/
def keyword_filter (keyword : PyStr) : Bool :=
  decide (3 ≤ keyword.length) && decide (keyword.length ≤ 100)
    && decide (numTokens keyword ≤ 6)

/-- Embeds `RealTimeSEOAnalyzer.generate_real_keywords` (rankbuddy_app.py, lines
197-234; identical in rankbuddy_app_realtime.py).  The four suggestion
sources are passed as already-fetched lists (`google_suggestions`,
`google_related`, `datamuse_words`, `wiki_terms`); the Python set
`all_keywords` is modelled as an insertion-ordered deduplicated list. -/
def generate_real_keywords (seed_keyword : PyStr)
    (google_suggestions google_related datamuse_words wiki_terms : List PyStr) :
    List PyStr :=
  let all_keywords : List PyStr :=
    [pyLower seed_keyword] ++ google_suggestions ++ google_related
      ++ datamuse_words.flatMap
          (fun word => [word ++ [32] ++ seed_keyword, seed_keyword ++ [32] ++ word])
      ++ (wiki_terms.filter (fun term => numTokens term ≤ 3)).flatMap
          (fun term =>
            [pyLower term ++ [32] ++ seed_keyword, seed_keyword ++ [32] ++ pyLower term])
  let filtered_keywords :=
    (all_keywords.dedup.filter keyword_filter).map (fun k => pyLower (pyStrip k))
  filtered_keywords.dedup.take 50

/-- Embeds `RealTimeSEOAnalyzer.categorize_keywords` (rankbuddy_app.py, lines
236-248): single pass appending each keyword to the short-tail bucket when
it has at most 2 tokens, else to the long-tail bucket. -/
def categorize_keywords : List PyStr → List PyStr × List PyStr
  | [] => ([], [])
  | keyword :: rest =>
    let buckets := categorize_keywords rest
    if numTokens keyword ≤ 2 then (keyword :: buckets.1, buckets.2)
    else (buckets.1, keyword :: buckets.2)

/-- The dictionary returned by `suggest_content_structure`. -/
structure ContentStructure where
  titles : List PyStr
  headings : List PyStr
  meta_description : PyStr
  target_length : Nat
  keyword_density : ℚ

/-- Embeds `RealTimeSEOAnalyzer.suggest_content_structure` (rankbuddy_app.py,
lines 257-282): pure string templating over the seed keyword. -/
def suggest_content_structure (keyword : PyStr) (related_keywords : List PyStr) :
    ContentStructure :=
  { titles :=
      [pyStr "Complete Guide to " ++ pyTitle keyword,
       pyStr "How to Master " ++ pyTitle keyword ++ pyStr ": Expert Tips",
       pyTitle keyword ++ pyStr ": Everything You Need to Know",
       pyStr "Ultimate " ++ pyTitle keyword ++ pyStr " Tutorial for Beginners",
       pyStr "Advanced " ++ pyTitle keyword ++ pyStr ": Best Practices"],
    headings :=
      [pyStr "What is " ++ pyTitle keyword ++ pyStr "?",
       pyStr "Why " ++ pyTitle keyword ++ pyStr " Matters in 2024",
       pyStr "Getting Started with " ++ pyTitle keyword,
       pyStr "Advanced " ++ pyTitle keyword ++ pyStr " Strategies",
       pyStr "Common " ++ pyTitle keyword ++ pyStr " Mistakes to Avoid",
       pyStr "Best " ++ pyTitle keyword ++ pyStr " Tools and Resources",
       pyStr "Real-World " ++ pyTitle keyword ++ pyStr " Examples",
       pyTitle keyword ++ pyStr " Future Trends"],
    meta_description :=
      pyStr "Master " ++ keyword
        ++ pyStr " with our comprehensive guide. Learn proven strategies, avoid common mistakes, and get expert tips for success.",
    target_length := 2000,
    keyword_density := 3 / 2 }

end RealTimeSEOAnalyzer

/-- The target keyword-mention computation shared by the content tab
(`keyword_mentions`, rankbuddy_app.py line 414) and `generate_ai_prompt`
(line 569): `int(target_length * keyword_density / 100)`. -/
def keyword_mentions (target_length : Nat) (keyword_density : ℚ) : ℤ :=
  pyInt (target_length * keyword_density / 100)

namespace SEOAnalyzer

/-- Embeds `SEOAnalyzer.load_word_frequencies` (rankbuddy_app_backup.py, lines
198-221): the fixed word-frequency lookup table. -/
def word_frequencies : List (PyStr × Nat) :=
  [(pyStr "how", 850000), (pyStr "what", 750000), (pyStr "best", 680000),
   (pyStr "top", 620000), (pyStr "guide", 450000), (pyStr "tips", 380000),
   (pyStr "review", 320000), (pyStr "free", 280000), (pyStr "tutorial", 240000),
   (pyStr "business", 220000), (pyStr "marketing", 180000), (pyStr "seo", 160000),
   (pyStr "growth", 140000), (pyStr "startup", 120000), (pyStr "tools", 110000),
   (pyStr "strategy", 95000), (pyStr "success", 85000), (pyStr "online", 75000),
   (pyStr "digital", 65000), (pyStr "beginner", 55000), (pyStr "advanced", 45000),
   (pyStr "complete", 40000), (pyStr "ultimate", 35000), (pyStr "simple", 30000),
   (pyStr "easy", 28000), (pyStr "quick", 25000), (pyStr "step", 22000),
   (pyStr "effective", 20000), (pyStr "proven", 18000), (pyStr "examples", 16000),
   (pyStr "case", 15000), (pyStr "study", 14000), (pyStr "method", 13000),
   (pyStr "technique", 12000), (pyStr "approach", 11000), (pyStr "framework", 10000),
   (pyStr "process", 9500), (pyStr "system", 9000), (pyStr "hack", 8500),
   (pyStr "secret", 8000), (pyStr "trick", 7500), (pyStr "mistake", 7000),
   (pyStr "common", 6500), (pyStr "popular", 6000), (pyStr "trending", 5500),
   (pyStr "latest", 5000), (pyStr "new", 4800), (pyStr "updated", 4600),
   (pyStr "modern", 4400), (pyStr "profitable", 4200), (pyStr "money", 4000),
   (pyStr "entrepreneur", 3800), (pyStr "founder", 3600), (pyStr "indie", 3400),
   (pyStr "solo", 3200), (pyStr "small", 3000), (pyStr "website", 2800),
   (pyStr "blog", 2600), (pyStr "content", 2400), (pyStr "optimization", 2200),
   (pyStr "rank", 2000), (pyStr "ranking", 1800), (pyStr "google", 1600),
   (pyStr "search", 1400), (pyStr "traffic", 1200), (pyStr "conversion", 1000),
   (pyStr "funnel", 900), (pyStr "leads", 800), (pyStr "sales", 700),
   (pyStr "revenue", 600), (pyStr "profit", 500)]

/-- Embeds `SEOAnalyzer.clean_text` (rankbuddy_app_backup.py, lines 291-295):
lower-case, then remove every character matching `[^a-zA-Z0-9\s]`. -/
def clean_text (s : PyStr) : PyStr :=
  (pyLower s).filter (fun c => isAlnumCode c || isSpace c)

/-- Frequency of one word: the table value when present, else 0
(the loop only adds table hits, so a miss contributes 0). -/
def freqLookup (w : PyStr) : Nat :=
  ((word_frequencies.find? (fun p => p.1 == w)).map Prod.snd).getD 0

/-- The loop `for word in words: if word in self.word_frequencies:
total_frequency += self.word_frequencies[word]`. -/
def totalFreqLoop : List PyStr → Nat
  | [] => 0
  | w :: ws => freqLookup w + totalFreqLoop ws

/-- Embeds `SEOAnalyzer.estimate_keyword_difficulty` (rankbuddy_app_backup.py,
lines 297-322): the frequency-informed difficulty heuristic. -/
def estimate_keyword_difficulty (keyword : PyStr) : ℚ :=
  let words := pySplit (clean_text keyword)
  let word_count : ℚ := words.length
  let avg_word_length : ℚ :=
    if words = [] then 0 else ((words.map List.length).sum : ℚ) / words.length
  let total_frequency : ℚ := totalFreqLoop words
  let frequency_score := pyMin (total_frequency / 10000) 50
  let length_score := pyMax 0 (30 - word_count * 5)
  let word_length_score := pyMax 0 (20 - avg_word_length * 2)
  let difficulty := frequency_score + length_score + word_length_score
  pyMin (pyMax difficulty 0) 100

end SEOAnalyzer

/-! ## Specification-side formulas

These definitions follow the wording of the specification and the claims,
to be compared with the embedded code above. -/

/-- The lexical heuristic as claim C2 words it: base
`clamp(80 - 15*tokenCount - 2*avgTokenLength, floor 10)`, plus 5 for each
*occurrence* of any high-competition vocabulary term in the (lower-cased)
keyword, final value clamped to at most 95. -/
def lexicalDifficultyClaim (keyword : PyStr) : ℚ :=
  let toks := pySplit (pyLower keyword)
  let tokenCount : ℚ := toks.length
  let avgTokenLength : ℚ :=
    if toks = [] then 0 else ((toks.map List.length).sum : ℚ) / toks.length
  let base := pyMax 10 (80 - 15 * tokenCount - 2 * avgTokenLength)
  let occurrences : Nat :=
    (RealTimeKeywordAPI.high_competition_terms.map
      (fun t => countOcc t (pyLower keyword))).sum
  pyMin 95 (base + 5 * (occurrences : ℚ))

/-- The lexical heuristic as amended: plus 5 for each vocabulary *term
that occurs* (as a substring of the lower-cased keyword), counted once per
term, not once per occurrence. -/
def lexicalDifficultyAmended (keyword : PyStr) : ℚ :=
  let toks := pySplit (pyLower keyword)
  let tokenCount : ℚ := toks.length
  let avgTokenLength : ℚ :=
    if toks = [] then 0 else ((toks.map List.length).sum : ℚ) / toks.length
  let base := pyMax 10 (80 - 15 * tokenCount - 2 * avgTokenLength)
  let presentTerms : Nat :=
    RealTimeKeywordAPI.high_competition_terms.countP
      (fun t => containsSub t (pyLower keyword))
  pyMin 95 (base + 5 * (presentTerms : ℚ))

/-- The frequency-informed heuristic as claim C7 words it:
`min(totalFrequency/10000, 50) + max(0, 30 - 5*tokenCount)
 + max(0, 20 - 2*avgTokenLength)` clamped to `[0,100]`, where
`totalFrequency` sums the lookup-table frequencies of the cleaned
tokens. -/
def frequencyDifficultySpec (keyword : PyStr) : ℚ :=
  let toks := pySplit (SEOAnalyzer.clean_text keyword)
  let tokenCount : ℚ := toks.length
  let avgTokenLength : ℚ :=
    if toks = [] then 0 else ((toks.map List.length).sum : ℚ) / toks.length
  let totalFrequency : ℚ := ((toks.map SEOAnalyzer.freqLookup).sum : Nat)
  pyMin
    (pyMax
      (pyMin (totalFrequency / 10000) 50 + pyMax 0 (30 - 5 * tokenCount)
        + pyMax 0 (20 - 2 * avgTokenLength))
      0)
    100

/-! ## Helper lemmas on the string primitives -/

theorem isSpace_lowerChar (n : Nat) : isSpace (lowerChar n) = isSpace n := by
  unfold lowerChar isSpace
  split
  · rename_i h
    rw [Bool.eq_iff_iff]
    simp only [Bool.or_eq_true, beq_iff_eq]
    omega
  · rfl

theorem lowerChar_idem (n : Nat) : lowerChar (lowerChar n) = lowerChar n := by
  unfold lowerChar
  split
  · rename_i h
    rw [if_neg (by omega)]
  · rfl

theorem pyLower_idem (s : PyStr) : pyLower (pyLower s) = pyLower s := by
  induction s with
  | nil => rfl
  | cons c t ih =>
    simp only [pyLower, List.map_cons] at ih ⊢
    rw [lowerChar_idem]
    exact congrArg _ ih

theorem dropWhile_isSpace_map_lowerChar (s : PyStr) :
    (s.map lowerChar).dropWhile isSpace = (s.dropWhile isSpace).map lowerChar := by
  induction s with
  | nil => rfl
  | cons c t ih =>
    simp only [List.map_cons, List.dropWhile_cons, isSpace_lowerChar]
    cases h : isSpace c with
    | true => simpa [h] using ih
    | false => simp [h]

theorem pyStrip_pyLower (s : PyStr) : pyStrip (pyLower s) = pyLower (pyStrip s) := by
  unfold pyStrip pyLower
  rw [dropWhile_isSpace_map_lowerChar, ← List.map_reverse,
    dropWhile_isSpace_map_lowerChar, ← List.map_reverse]

theorem pySplitAux_map_lowerChar (s cur : PyStr) :
    pySplitAux (s.map lowerChar) (cur.map lowerChar)
      = (pySplitAux s cur).map (List.map lowerChar) := by
  induction s generalizing cur with
  | nil =>
    simp only [pySplitAux, List.map_eq_nil_iff]
    split
    · simp [*]
    · simp [*, List.map_reverse]
  | cons c t ih =>
    simp only [List.map_cons, pySplitAux, isSpace_lowerChar]
    cases h : isSpace c with
    | true =>
      simp only [if_pos rfl, List.map_eq_nil_iff]
      by_cases hc : cur = []
      · subst hc
        simpa using ih []
      · rw [if_neg hc, if_neg hc]
        have := ih []
        simp only [List.map_nil] at this
        simp [this, List.map_reverse]
    | false =>
      simpa using ih (c :: cur)

theorem pySplit_pyLower (s : PyStr) :
    pySplit (pyLower s) = (pySplit s).map (List.map lowerChar) := by
  have := pySplitAux_map_lowerChar s []
  simpa [pySplit, pyLower] using this

theorem numTokens_pyLower (s : PyStr) : numTokens (pyLower s) = numTokens s := by
  simp [numTokens, pySplit_pyLower]

theorem pySplitAux_dropWhile (s : PyStr) :
    pySplitAux (s.dropWhile isSpace) [] = pySplitAux s [] := by
  induction s with
  | nil => rfl
  | cons c t ih =>
    simp only [List.dropWhile_cons, pySplitAux]
    cases h : isSpace c with
    | true => simpa [h] using ih
    | false => simp [h, pySplitAux]

theorem pySplitAux_all_space (w : PyStr) (hw : ∀ c ∈ w, isSpace c = true) (cur : PyStr) :
    pySplitAux w cur = if cur = [] then [] else [cur.reverse] := by
  induction w generalizing cur with
  | nil => rfl
  | cons c t ih =>
    have hc : isSpace c = true := hw c (by simp)
    have ht : ∀ x ∈ t, isSpace x = true := fun x hx => hw x (by simp [hx])
    simp only [pySplitAux, hc, if_pos rfl]
    by_cases hcur : cur = []
    · simp [hcur, ih ht []]
    · simp [hcur, ih ht []]

theorem pySplitAux_append_space (t w : PyStr) (hw : ∀ c ∈ w, isSpace c = true)
    (cur : PyStr) : pySplitAux (t ++ w) cur = pySplitAux t cur := by
  induction t generalizing cur with
  | nil =>
    rw [List.nil_append, pySplitAux_all_space w hw]
    rfl
  | cons c r ih =>
    simp only [List.cons_append, pySplitAux]
    cases h : isSpace c with
    | true =>
      by_cases hcur : cur = [] <;> simp [hcur, ih []]
    | false => simp [ih (c :: cur)]

theorem pySplit_pyStrip (s : PyStr) : pySplit (pyStrip s) = pySplit s := by
  unfold pySplit pyStrip
  have hdec :
      s.dropWhile isSpace
        = ((s.dropWhile isSpace).reverse.dropWhile isSpace).reverse
            ++ ((s.dropWhile isSpace).reverse.takeWhile isSpace).reverse := by
    conv_lhs => rw [← List.reverse_reverse (s.dropWhile isSpace)]
    rw [← List.reverse_append, List.takeWhile_append_dropWhile]
  have hsp : ∀ c ∈ ((s.dropWhile isSpace).reverse.takeWhile isSpace).reverse,
      isSpace c = true := by
    intro c hc
    rw [List.mem_reverse] at hc
    exact List.mem_takeWhile_imp hc
  calc pySplitAux (((s.dropWhile isSpace).reverse.dropWhile isSpace).reverse) []
      = pySplitAux (s.dropWhile isSpace) [] := by
        conv_rhs => rw [hdec]
        rw [pySplitAux_append_space _ _ hsp]
    _ = pySplitAux s [] := pySplitAux_dropWhile s

theorem numTokens_pyStrip (s : PyStr) : numTokens (pyStrip s) = numTokens s := by
  simp [numTokens, pySplit_pyStrip]

theorem length_pyStrip_le (s : PyStr) : (pyStrip s).length ≤ s.length := by
  unfold pyStrip
  calc (((s.dropWhile isSpace).reverse.dropWhile isSpace).reverse).length
      = (((s.dropWhile isSpace).reverse.dropWhile isSpace)).length := by
        rw [List.length_reverse]
    _ ≤ ((s.dropWhile isSpace).reverse).length := by
        apply List.Sublist.length_le
        exact (List.dropWhile_sublist _)
    _ = (s.dropWhile isSpace).length := by rw [List.length_reverse]
    _ ≤ s.length := (List.dropWhile_sublist _).length_le

/-- No leading whitespace. -/
def headSpaceFree (s : PyStr) : Prop := ∀ c, s.head? = some c → isSpace c = false

theorem headSpaceFree_nil : headSpaceFree [] := by
  intro c hc
  simp at hc

theorem headSpaceFree_dropWhile (s : PyStr) : headSpaceFree (s.dropWhile isSpace) := by
  induction s with
  | nil => exact headSpaceFree_nil
  | cons c t ih =>
    rw [List.dropWhile_cons]
    split
    · exact ih
    · rename_i h
      intro x hx
      simp only [List.head?_cons, Option.some.injEq] at hx
      subst hx
      simpa using h

theorem dropWhile_eq_self_of_headSpaceFree (s : PyStr) (h : headSpaceFree s) :
    s.dropWhile isSpace = s := by
  cases s with
  | nil => rfl
  | cons c t =>
    rw [List.dropWhile_cons, if_neg]
    rw [h c rfl]
    simp

theorem headSpaceFree_reverse_dropWhile (s : PyStr) (h : headSpaceFree s.reverse) :
    headSpaceFree (s.dropWhile isSpace).reverse := by
  intro c hc
  have hsplit : s.reverse = (s.dropWhile isSpace).reverse ++ (s.takeWhile isSpace).reverse := by
    rw [← List.reverse_append, List.takeWhile_append_dropWhile]
  apply h c
  rw [hsplit]
  cases hrev : (s.dropWhile isSpace).reverse with
  | nil => rw [hrev] at hc; simp at hc
  | cons a t =>
    rw [hrev] at hc
    simp only [List.head?_cons, Option.some.injEq] at hc
    subst hc
    rfl

theorem headSpaceFree_pyStrip (s : PyStr) : headSpaceFree (pyStrip s) := by
  unfold pyStrip
  apply headSpaceFree_reverse_dropWhile
  rw [List.reverse_reverse]
  exact headSpaceFree_dropWhile s

theorem headSpaceFree_reverse_pyStrip (s : PyStr) : headSpaceFree (pyStrip s).reverse := by
  unfold pyStrip
  rw [List.reverse_reverse]
  exact headSpaceFree_dropWhile _

theorem pyStrip_eq_self (s : PyStr) (h1 : headSpaceFree s) (h2 : headSpaceFree s.reverse) :
    pyStrip s = s := by
  unfold pyStrip
  rw [dropWhile_eq_self_of_headSpaceFree s h1, dropWhile_eq_self_of_headSpaceFree _ h2,
    List.reverse_reverse]

theorem headSpaceFree_pyLower (s : PyStr) (h : headSpaceFree s) :
    headSpaceFree (pyLower s) := by
  intro c hc
  unfold pyLower at hc
  rw [List.head?_map] at hc
  cases hh : s.head? with
  | none => rw [hh] at hc; simp at hc
  | some a =>
    rw [hh] at hc
    have hac : lowerChar a = c := by simpa using hc
    subst hac
    rw [isSpace_lowerChar]
    exact h a hh

theorem pyStrip_fix_of_strip_lower (k : PyStr) :
    pyStrip (pyLower (pyStrip k)) = pyLower (pyStrip k) := by
  apply pyStrip_eq_self
  · exact headSpaceFree_pyLower _ (headSpaceFree_pyStrip k)
  · unfold pyLower
    rw [← List.map_reverse]
    exact headSpaceFree_pyLower _ (headSpaceFree_reverse_pyStrip k)

theorem le_pyMax_left (a b : ℚ) : a ≤ pyMax a b := by
  unfold pyMax
  split <;> linarith

theorem pyMax_le (a b c : ℚ) (h1 : a ≤ c) (h2 : b ≤ c) : pyMax a b ≤ c := by
  unfold pyMax
  split <;> assumption

theorem pyMin_le_left (a b : ℚ) : pyMin a b ≤ a := by
  unfold pyMin
  split <;> linarith

theorem le_pyMin (a b c : ℚ) (h1 : c ≤ a) (h2 : c ≤ b) : c ≤ pyMin a b := by
  unfold pyMin
  split <;> assumption

theorem pyMin_nonneg_left (a b : ℚ) (ha : 0 ≤ a) (hb : 0 ≤ b) : 0 ≤ pyMin a b :=
  le_pyMin a b 0 ha hb

namespace RealTimeKeywordAPI

theorem boostSum_nonneg (kl : PyStr) (ts : List PyStr) : 0 ≤ boostSum kl ts := by
  induction ts with
  | nil => simp [boostSum]
  | cons t ts ih =>
    unfold boostSum
    have : (0 : ℚ) ≤ if containsSub t kl then 5 else 0 := by split <;> norm_num
    linarith

theorem boostSum_eq_countP (kl : PyStr) (ts : List PyStr) :
    boostSum kl ts = 5 * ((ts.countP (fun t => containsSub t kl) : Nat) : ℚ) := by
  induction ts with
  | nil => simp [boostSum]
  | cons t ts ih =>
    unfold boostSum
    rw [List.countP_cons, ih]
    cases h : containsSub t kl with
    | true => simp [h]; ring
    | false => simp [h]

/-- The lexical score is always in `[10, 95]`. -/
theorem estimate_keyword_difficulty_bounds (keyword : PyStr) :
    10 ≤ estimate_keyword_difficulty keyword
      ∧ estimate_keyword_difficulty keyword ≤ 95 := by
  unfold estimate_keyword_difficulty
  constructor
  · apply le_pyMin
    · norm_num
    · have h1 := le_pyMax_left 10
        (80 - ((pySplit (pyLower keyword)).length : ℚ) * 15
          - (if pySplit (pyLower keyword) = [] then 0
             else (((pySplit (pyLower keyword)).map List.length).sum : ℚ)
               / ((pySplit (pyLower keyword)).length : ℚ)) * 2)
      have h2 := boostSum_nonneg (pyLower keyword) high_competition_terms
      linarith
  · exact pyMin_le_left _ _

end RealTimeKeywordAPI

namespace SEOAnalyzer

theorem totalFreqLoop_eq_sum (ws : List PyStr) :
    totalFreqLoop ws = (ws.map freqLookup).sum := by
  induction ws with
  | nil => rfl
  | cons w ws ih => simp [totalFreqLoop, ih]

end SEOAnalyzer

namespace RealTimeSEOAnalyzer

theorem categorize_keywords_eq_filters (keywords : List PyStr) :
    categorize_keywords keywords
      = (keywords.filter (fun k => decide (numTokens k ≤ 2)),
         keywords.filter (fun k => decide (2 < numTokens k))) := by
  induction keywords with
  | nil => rfl
  | cons k rest ih =>
    unfold categorize_keywords
    rw [ih]
    by_cases h : numTokens k ≤ 2
    · have h2 : ¬ 2 < numTokens k := by omega
      simp [h, h2, List.filter_cons]
    · have h2 : 2 < numTokens k := by omega
      simp [h, h2, List.filter_cons]

theorem keyword_filter_iff (keyword : PyStr) :
    keyword_filter keyword = true
      ↔ (3 ≤ keyword.length ∧ keyword.length ≤ 100 ∧ numTokens keyword ≤ 6) := by
  unfold keyword_filter
  simp [and_assoc]

end RealTimeSEOAnalyzer

theorem pySplitAux_eq_nil (s : PyStr) (cur : PyStr) (h : pySplitAux s cur = []) :
    (∀ c ∈ s, isSpace c = true) ∧ cur = [] := by
  induction s generalizing cur with
  | nil =>
    unfold pySplitAux at h
    constructor
    · intro c hc
      simp at hc
    · by_cases hcur : cur = []
      · exact hcur
      · rw [if_neg hcur] at h
        simp at h
  | cons c t ih =>
    unfold pySplitAux at h
    cases hc : isSpace c with
    | true =>
      rw [hc, if_pos rfl] at h
      by_cases hcur : cur = []
      · rw [if_pos hcur] at h
        obtain ⟨hall, -⟩ := ih [] h
        refine ⟨?_, hcur⟩
        intro x hx
        rcases List.mem_cons.mp hx with hx | hx
        · subst hx; exact hc
        · exact hall x hx
      · rw [if_neg hcur] at h
        simp at h
    | false =>
      rw [hc] at h
      simp only [Bool.false_eq_true, if_false] at h
      obtain ⟨-, hcontra⟩ := ih (c :: cur) h
      simp at hcontra

theorem containsSub_eq_false_of_all_space (s : PyStr) (hs : ∀ c ∈ s, isSpace c = true)
    (c0 : Nat) (pat : PyStr) (hc0 : isSpace c0 = false) :
    containsSub (c0 :: pat) s = false := by
  induction s with
  | nil => rfl
  | cons c t ih =>
    unfold containsSub
    have hc : isSpace c = true := hs c (by simp)
    have hne : (c0 == c) = false := by
      rw [beq_eq_false_iff_ne]
      intro he
      rw [he, hc] at hc0
      simp at hc0
    have ht : ∀ x ∈ t, isSpace x = true := fun x hx => hs x (by simp [hx])
    rw [ih ht]
    simp only [List.isPrefixOf, hne, Bool.false_and, Bool.or_false]

namespace RealTimeKeywordAPI

theorem boostSum_all_space (kl : PyStr) (h : ∀ c ∈ kl, isSpace c = true) :
    boostSum kl high_competition_terms = 0 := by
  have e1 : pyStr "best" = 98 :: [101, 115, 116] := by decide
  have e2 : pyStr "top" = 116 :: [111, 112] := by decide
  have e3 : pyStr "free" = 102 :: [114, 101, 101] := by decide
  have e4 : pyStr "review" = 114 :: [101, 118, 105, 101, 119] := by decide
  have e5 : pyStr "buy" = 98 :: [117, 121] := by decide
  have e6 : pyStr "cheap" = 99 :: [104, 101, 97, 112] := by decide
  have e7 : pyStr "price" = 112 :: [114, 105, 99, 101] := by decide
  have f1 := containsSub_eq_false_of_all_space kl h 98 [101, 115, 116] (by decide)
  have f2 := containsSub_eq_false_of_all_space kl h 116 [111, 112] (by decide)
  have f3 := containsSub_eq_false_of_all_space kl h 102 [114, 101, 101] (by decide)
  have f4 := containsSub_eq_false_of_all_space kl h 114 [101, 118, 105, 101, 119] (by decide)
  have f5 := containsSub_eq_false_of_all_space kl h 98 [117, 121] (by decide)
  have f6 := containsSub_eq_false_of_all_space kl h 99 [104, 101, 97, 112] (by decide)
  have f7 := containsSub_eq_false_of_all_space kl h 112 [114, 105, 99, 101] (by decide)
  unfold high_competition_terms
  simp only [boostSum, e1, e2, e3, e4, e5, e6, e7, f1, f2, f3, f4, f5, f6, f7,
    Bool.false_eq_true, if_false]
  norm_num

/-- On a keyword with no tokens (all-whitespace or empty) the lexical
heuristic returns 80: the guarded average makes the base
`max(10, 80) = 80` and no competition term can occur. -/
theorem estimate_keyword_difficulty_no_tokens (keyword : PyStr)
    (h : pySplit (pyLower keyword) = []) :
    estimate_keyword_difficulty keyword = 80 := by
  have hall : ∀ c ∈ pyLower keyword, isSpace c = true :=
    (pySplitAux_eq_nil (pyLower keyword) [] h).1
  unfold estimate_keyword_difficulty
  rw [h, boostSum_all_space (pyLower keyword) hall]
  norm_num [pyMax, pyMin]

end RealTimeKeywordAPI

/-! ## Concrete evaluations used by the claims -/

theorem lexical_eval_best_best :
    RealTimeKeywordAPI.estimate_keyword_difficulty (pyStr "best best") = 47 := by
  simp [RealTimeKeywordAPI.estimate_keyword_difficulty, pySplit, pySplitAux, pyStr,
    pyLower, lowerChar, isSpace, RealTimeKeywordAPI.boostSum, containsSub,
    RealTimeKeywordAPI.high_competition_terms, pyMax, pyMin]
  norm_num

theorem lexical_eval_single_a :
    RealTimeKeywordAPI.estimate_keyword_difficulty (pyStr "a") = 63 := by
  simp [RealTimeKeywordAPI.estimate_keyword_difficulty, pySplit, pySplitAux, pyStr,
    pyLower, lowerChar, isSpace, RealTimeKeywordAPI.boostSum, containsSub,
    RealTimeKeywordAPI.high_competition_terms, pyMax, pyMin]
  norm_num

theorem lexical_eval_long_phrase :
    RealTimeKeywordAPI.estimate_keyword_difficulty
      (pyStr "advanced industrial keyword research methodology") = 10 := by
  simp [RealTimeKeywordAPI.estimate_keyword_difficulty, pySplit, pySplitAux, pyStr,
    pyLower, lowerChar, isSpace, RealTimeKeywordAPI.boostSum, containsSub,
    RealTimeKeywordAPI.high_competition_terms, pyMax, pyMin]
  norm_num

theorem claim_eval_best_best : lexicalDifficultyClaim (pyStr "best best") = 52 := by
  simp [lexicalDifficultyClaim, pySplit, pySplitAux, pyStr, pyLower, lowerChar,
    isSpace, countOcc, RealTimeKeywordAPI.high_competition_terms, pyMax, pyMin]
  norm_num

/-! ## Claim C2 -/

/-- Claim C2 (counterexample): the lexical heuristic does **not** add 5 for
each *occurrence* of a vocabulary term.  On `"best best"` (two occurrences
of `"best"`) the code returns 47 (one +5 for the term being present),
while the claimed per-occurrence formula gives 52. -/
theorem c2_boost_not_per_occurrence :
    RealTimeKeywordAPI.estimate_keyword_difficulty (pyStr "best best") = 47
      ∧ lexicalDifficultyClaim (pyStr "best best") = 52
      ∧ RealTimeKeywordAPI.estimate_keyword_difficulty (pyStr "best best")
          ≠ lexicalDifficultyClaim (pyStr "best best") := by
  refine ⟨lexical_eval_best_best, claim_eval_best_best, ?_⟩
  rw [lexical_eval_best_best, claim_eval_best_best]
  norm_num

/-- Claim C2 (amended): for every keyword, the lexical heuristic returns
`clamp(80 - 15*tokenCount - 2*avgTokenLength, floor 10)` plus 5 for each
vocabulary term of {best, top, free, review, buy, cheap, price} that occurs
as a substring of the lower-cased keyword (counted once per term), clamped
to at most 95. -/
theorem c2_lexical_difficulty_formula (keyword : PyStr) :
    RealTimeKeywordAPI.estimate_keyword_difficulty keyword
      = lexicalDifficultyAmended keyword := by
  unfold RealTimeKeywordAPI.estimate_keyword_difficulty lexicalDifficultyAmended
  rw [RealTimeKeywordAPI.boostSum_eq_countP]
  ring_nf

/-! ## Claim C3 -/

/-- Claim C3 (counterexample): on the empty keyword the real-time lexical
heuristic returns 80, not the claimed default 50 — the guarded average
makes its `try` body succeed with `max(10, 80) = 80`, so the
50-returning `except` branch is never reached. -/
theorem c3_lexical_empty_returns_80 :
    RealTimeKeywordAPI.estimate_keyword_difficulty (pyStr "") = 80
      ∧ RealTimeKeywordAPI.estimate_keyword_difficulty (pyStr "") ≠ 50 := by
  have h : RealTimeKeywordAPI.estimate_keyword_difficulty (pyStr "") = 80 :=
    RealTimeKeywordAPI.estimate_keyword_difficulty_no_tokens (pyStr "") (by decide)
  refine ⟨h, ?_⟩
  rw [h]
  norm_num

/-- Claim C3 (amended): an input whose token list is empty makes neither
heuristic fail, but only the offline frequency-informed heuristic returns
the default medium score 50 (as `0 + 30 + 20`); the real-time lexical
heuristic returns 80 on such input. -/
theorem c3_empty_token_defaults (kw1 kw2 : PyStr)
    (h1 : pySplit (SEOAnalyzer.clean_text kw1) = [])
    (h2 : pySplit (pyLower kw2) = []) :
    SEOAnalyzer.estimate_keyword_difficulty kw1 = 50
      ∧ RealTimeKeywordAPI.estimate_keyword_difficulty kw2 = 80 := by
  constructor
  · unfold SEOAnalyzer.estimate_keyword_difficulty
    rw [h1]
    norm_num [SEOAnalyzer.totalFreqLoop, pyMin, pyMax]
  · exact RealTimeKeywordAPI.estimate_keyword_difficulty_no_tokens kw2 h2

/-- Witness for the amended claim C3: `"!!!"` cleans to an empty token
list for the offline heuristic, and a single space has no tokens for the
lexical one. -/
theorem c3_empty_token_defaults_witness :
    pySplit (SEOAnalyzer.clean_text (pyStr "!!!")) = []
      ∧ pySplit (pyLower (pyStr " ")) = []
      ∧ (SEOAnalyzer.estimate_keyword_difficulty (pyStr "!!!") = 50
          ∧ RealTimeKeywordAPI.estimate_keyword_difficulty (pyStr " ") = 80) :=
  ⟨by decide, by decide,
    c3_empty_token_defaults (pyStr "!!!") (pyStr " ") (by decide) (by decide)⟩

/-! ## Claim C6 -/

/-- Claim C6 (confirmed): every lexical difficulty score lies in
`[0, 100]`, and the score of the single short generic token `"a"` is at
least the score of the five-token phrase
`"advanced industrial keyword research methodology"` (63 versus 10). -/
theorem c6_score_bounds_and_direction :
    (∀ keyword : PyStr,
        0 ≤ RealTimeKeywordAPI.estimate_keyword_difficulty keyword
          ∧ RealTimeKeywordAPI.estimate_keyword_difficulty keyword ≤ 100)
      ∧ RealTimeKeywordAPI.estimate_keyword_difficulty
            (pyStr "advanced industrial keyword research methodology")
          ≤ RealTimeKeywordAPI.estimate_keyword_difficulty (pyStr "a") := by
  constructor
  · intro keyword
    obtain ⟨hlo, hhi⟩ := RealTimeKeywordAPI.estimate_keyword_difficulty_bounds keyword
    constructor <;> linarith
  · rw [lexical_eval_single_a, lexical_eval_long_phrase]
    norm_num

/-! ## Claim C10 -/

/-- Claim C10 (confirmed): the lexical heuristic in fact always returns a
value in the tighter range `[10, 95]` — the base is floored at 10, the
boost is nonnegative, and the total is capped at 95 — so the extremes 0
and 100 of the documented range are never produced. -/
theorem c10_lexical_score_in_10_95 (keyword : PyStr) :
    10 ≤ RealTimeKeywordAPI.estimate_keyword_difficulty keyword
      ∧ RealTimeKeywordAPI.estimate_keyword_difficulty keyword ≤ 95 :=
  RealTimeKeywordAPI.estimate_keyword_difficulty_bounds keyword

/-! ## Claim C7 -/

/-- Claim C7 (confirmed): the offline frequency-informed heuristic returns
`min(totalFrequency/10000, 50) + max(0, 30 - 5*tokenCount)
 + max(0, 20 - 2*avgTokenLength)` clamped to `[0, 100]`, where
`totalFrequency` sums the lookup-table frequencies of the keyword's
cleaned tokens. -/
theorem c7_frequency_difficulty_formula (keyword : PyStr) :
    SEOAnalyzer.estimate_keyword_difficulty keyword
      = frequencyDifficultySpec keyword := by
  unfold SEOAnalyzer.estimate_keyword_difficulty frequencyDifficultySpec
  dsimp only
  rw [SEOAnalyzer.totalFreqLoop_eq_sum]
  ring_nf

/-! ## Claim C4 -/

/-- Claim C4 (confirmed): `categorize_keywords` partitions its input —
a keyword lands in the short-tail bucket iff it is in the pool with at
most 2 tokens, in the long-tail bucket iff it is in the pool with more
than 2 tokens, the buckets have no common member, and together they are a
permutation (multiset equality) of the pool. -/
theorem c4_categorize_partitions_pool (keywords : List PyStr) :
    (∀ k, k ∈ (RealTimeSEOAnalyzer.categorize_keywords keywords).1
        ↔ (k ∈ keywords ∧ numTokens k ≤ 2))
      ∧ (∀ k, k ∈ (RealTimeSEOAnalyzer.categorize_keywords keywords).2
          ↔ (k ∈ keywords ∧ 2 < numTokens k))
      ∧ ((RealTimeSEOAnalyzer.categorize_keywords keywords).1
            ∩ (RealTimeSEOAnalyzer.categorize_keywords keywords).2 = [])
      ∧ List.Perm
          ((RealTimeSEOAnalyzer.categorize_keywords keywords).1
            ++ (RealTimeSEOAnalyzer.categorize_keywords keywords).2)
          keywords := by
  rw [RealTimeSEOAnalyzer.categorize_keywords_eq_filters]
  refine ⟨?_, ?_, ?_, ?_⟩
  · intro k
    simp [List.mem_filter]
  · intro k
    simp [List.mem_filter]
  · rw [List.eq_nil_iff_forall_not_mem]
    intro k hk
    dsimp only at hk
    rw [List.mem_inter_iff, List.mem_filter, List.mem_filter] at hk
    obtain ⟨⟨-, hshort⟩, -, hlong⟩ := hk
    rw [decide_eq_true_iff] at hshort hlong
    omega
  · have hq : keywords.filter (fun k => decide (2 < numTokens k))
        = keywords.filter (fun k => ! decide (numTokens k ≤ 2)) := by
      apply List.filter_congr
      intro k _
      rw [← decide_not, decide_eq_decide]
      omega
    rw [hq]
    exact List.filter_append_perm _ keywords

/-! ## Claim C9 -/

/-- Claim C9 (confirmed): `suggest_content_structure` ignores its
`related_keywords` argument entirely — the resulting titles, headings,
meta description, target length and keyword density depend only on the
seed keyword. -/
theorem c9_structure_ignores_related_keywords
    (keyword : PyStr) (kws1 kws2 : List PyStr) :
    RealTimeSEOAnalyzer.suggest_content_structure keyword kws1
      = RealTimeSEOAnalyzer.suggest_content_structure keyword kws2 := rfl

/-! ## Claim C8 -/

/-- Claim C8 (counterexample): the target keyword-mention count is
computed with Python's `int()` (truncation), not `round`: at target
length 1999 and density 1.5 the code yields `int(29.985) = 29` while the
claimed formula `round(targetLength * density / 100)` yields 30. -/
theorem c8_mentions_truncates_not_rounds :
    keyword_mentions 1999 (3 / 2) = 29
      ∧ round ((1999 : ℚ) * (3 / 2) / 100) = 30
      ∧ keyword_mentions 1999 (3 / 2) ≠ round ((1999 : ℚ) * (3 / 2) / 100) := by
  have h1 : keyword_mentions 1999 (3 / 2) = 29 := by
    unfold keyword_mentions pyInt
    rw [if_pos (by norm_num)]
    norm_num
  have h2 : round ((1999 : ℚ) * (3 / 2) / 100) = 30 := by
    rw [round_eq]
    norm_num
  refine ⟨h1, h2, ?_⟩
  rw [h1, h2]
  norm_num

/-- Claim C8 (amended): for every nonnegative density configuration the
target keyword-mention count equals the *truncation*
`⌊targetLength * density / 100⌋`, and at the defaults (2000 words, 1.5%)
this coincides with the claimed `round(targetLength * density / 100)`,
both giving 30. -/
theorem c8_mentions_truncation :
    (∀ (target_length : Nat) (keyword_density : ℚ), 0 ≤ keyword_density →
        keyword_mentions target_length keyword_density
          = ⌊(target_length : ℚ) * keyword_density / 100⌋)
      ∧ keyword_mentions 2000 (3 / 2) = round ((2000 : ℚ) * (3 / 2) / 100) := by
  constructor
  · intro tl kd hkd
    unfold keyword_mentions pyInt
    rw [if_pos]
    positivity
  · have h1 : keyword_mentions 2000 (3 / 2) = 30 := by
      unfold keyword_mentions pyInt
      rw [if_pos (by norm_num)]
      norm_num
    rw [h1, round_eq]
    norm_num

/-- Witness for the amended claim C8: instantiating the truncation formula
at the default configuration (2000 words, density 1.5). -/
theorem c8_mentions_truncation_witness :
    (0 : ℚ) ≤ 3 / 2
      ∧ keyword_mentions 2000 (3 / 2) = ⌊(2000 : ℚ) * (3 / 2) / 100⌋ :=
  ⟨by norm_num, c8_mentions_truncation.1 2000 (3 / 2) (by norm_num)⟩

/-! ## Claim C1 -/

/-- Claim C1 (counterexample): the non-empty seed `"ab"` (length 2) is
removed by the aggregation filter's minimum-length bound, so with every
source empty the returned pool does not contain the normalized seed —
indeed it is empty. -/
theorem c1_short_seed_not_in_pool :
    (pyStr "ab").length = 2
      ∧ pyLower (pyStr "ab")
          ∉ RealTimeSEOAnalyzer.generate_real_keywords (pyStr "ab") [] [] [] [] := by
  constructor
  · decide
  · decide

/-- Claim C1 (amended): for every seed phrase whose lower-cased form
passes the aggregation filter (length in `[3, 100]`, at most 6 tokens),
the pool contains the trimmed lower-cased seed even when every suggestion
source contributes an empty sequence. -/
theorem c1_pool_contains_normalized_seed (seed_keyword : PyStr)
    (h1 : 3 ≤ (pyLower seed_keyword).length)
    (h2 : (pyLower seed_keyword).length ≤ 100)
    (h3 : numTokens (pyLower seed_keyword) ≤ 6) :
    pyLower (pyStrip seed_keyword)
      ∈ RealTimeSEOAnalyzer.generate_real_keywords seed_keyword [] [] [] [] := by
  unfold RealTimeSEOAnalyzer.generate_real_keywords
  have hkeep : RealTimeSEOAnalyzer.keyword_filter (pyLower seed_keyword) = true :=
    (RealTimeSEOAnalyzer.keyword_filter_iff (pyLower seed_keyword)).mpr ⟨h1, h2, h3⟩
  have hsing : ∀ x : PyStr, ([x] : List PyStr).dedup = [x] := by
    intro x
    rw [List.dedup_cons_of_not_mem (List.not_mem_nil x), List.dedup_nil]
  simp only [List.flatMap_nil, List.filter_nil, List.append_nil]
  rw [hsing, List.filter_cons_of_pos hkeep, List.filter_nil, List.map_cons, List.map_nil,
    pyStrip_pyLower, pyLower_idem, hsing]
  simp

/-- Witness for the amended claim C1 at the seed `"seo"`. -/
theorem c1_pool_contains_normalized_seed_witness :
    3 ≤ (pyLower (pyStr "seo")).length
      ∧ (pyLower (pyStr "seo")).length ≤ 100
      ∧ numTokens (pyLower (pyStr "seo")) ≤ 6
      ∧ pyLower (pyStrip (pyStr "seo"))
          ∈ RealTimeSEOAnalyzer.generate_real_keywords (pyStr "seo") [] [] [] [] :=
  ⟨by decide, by decide, by decide,
    c1_pool_contains_normalized_seed (pyStr "seo") (by decide) (by decide) (by decide)⟩

/-! ## Claim C5 -/

/-- Claim C5 (counterexample): the filter checks a candidate *before* it
is stripped, so the candidate `" a "` (length 3) passes the filter and is
then stored as the pool member `"a"` of length 1 — pool members are not
guaranteed a length of at least 3. -/
theorem c5_member_shorter_than_three :
    pyStr "a"
        ∈ RealTimeSEOAnalyzer.generate_real_keywords (pyStr "seo")
            [pyStr " a "] [] [] []
      ∧ (pyStr "a").length = 1
      ∧ ¬ 3 ≤ (pyStr "a").length := by
  refine ⟨by decide, by decide, by decide⟩

/-- Claim C5 (amended): the pool has at most 50 members; every member is
trimmed and lower-cased, of length at most 100 and with at most 6 tokens
(the lower bound 3 can be lost because candidates are stripped only after
being filtered); and the aggregation filter keeps a candidate iff its
length is in `[3, 100]` and its token count is at most 6. -/
theorem c5_pool_invariants (seed_keyword : PyStr)
    (google_suggestions google_related datamuse_words wiki_terms : List PyStr)
    (k : PyStr)
    (hk : k ∈ RealTimeSEOAnalyzer.generate_real_keywords seed_keyword
        google_suggestions google_related datamuse_words wiki_terms) :
    (RealTimeSEOAnalyzer.generate_real_keywords seed_keyword
        google_suggestions google_related datamuse_words wiki_terms).length ≤ 50
      ∧ pyStrip k = k ∧ pyLower k = k ∧ k.length ≤ 100 ∧ numTokens k ≤ 6
      ∧ (∀ c : PyStr, RealTimeSEOAnalyzer.keyword_filter c = true
          ↔ (3 ≤ c.length ∧ c.length ≤ 100 ∧ numTokens c ≤ 6)) := by
  unfold RealTimeSEOAnalyzer.generate_real_keywords at hk ⊢
  dsimp only at hk ⊢
  have hk2 := List.mem_dedup.mp (List.mem_of_mem_take hk)
  rw [List.mem_map] at hk2
  obtain ⟨c, hcmem, hck⟩ := hk2
  rw [List.mem_filter] at hcmem
  obtain ⟨hc3, hc100, hc6⟩ :=
    (RealTimeSEOAnalyzer.keyword_filter_iff c).mp hcmem.2
  subst hck
  refine ⟨List.length_take_le _ _, pyStrip_fix_of_strip_lower c, pyLower_idem _, ?_, ?_,
    RealTimeSEOAnalyzer.keyword_filter_iff⟩
  · calc (pyLower (pyStrip c)).length = (pyStrip c).length := List.length_map _ _
      _ ≤ c.length := length_pyStrip_le c
      _ ≤ 100 := hc100
  · rw [numTokens_pyLower, numTokens_pyStrip]
    exact hc6

/-- Witness for the amended claim C5: the pool for the seed `"seo"` with
empty sources, and its member `"seo"`. -/
theorem c5_pool_invariants_witness :
    pyStr "seo"
        ∈ RealTimeSEOAnalyzer.generate_real_keywords (pyStr "seo") [] [] [] []
      ∧ ((RealTimeSEOAnalyzer.generate_real_keywords (pyStr "seo")
            [] [] [] []).length ≤ 50
          ∧ pyStrip (pyStr "seo") = pyStr "seo"
          ∧ pyLower (pyStr "seo") = pyStr "seo"
          ∧ (pyStr "seo").length ≤ 100 ∧ numTokens (pyStr "seo") ≤ 6
          ∧ (∀ c : PyStr, RealTimeSEOAnalyzer.keyword_filter c = true
              ↔ (3 ≤ c.length ∧ c.length ≤ 100 ∧ numTokens c ≤ 6))) :=
  ⟨by decide,
    c5_pool_invariants (pyStr "seo") [] [] [] [] (pyStr "seo") (by decide)⟩
